import Mathlib

/-!
A shallow embedding of `src/command.rs` of the pty-process crate: the
`Command` builder that wraps `async_process::Command`, defaults the three
standard streams to pty-derived handles unless explicitly configured, and
composes the session-leader setup function with an optional user pre-exec
hook before delegating to the underlying spawn primitive.
-/

namespace PtyProcess

/-- An observable event of running a pre-exec function in the child:
either the session-leader setup ran, or a user-registered function ran. -/
inductive Event where
  | sessionLeaderRun (pts : Nat)
  | userRun (id : Nat)
deriving DecidableEq, Repr

/-- Deep embedding of the pre-exec functions the code manipulates:
`sessionLeader pts` is the closure returned by `crate::sys::session_leader(pts)`;
`user id` is a caller-supplied closure (identified by a number); and
`composed pts id` is the wrapper built in `Command::spawn`:
`move || { session_leader()?; custom()?; Ok(()) }`. -/
inductive PreExecFn where
  | sessionLeader (pts : Nat)
  | user (id : Nat)
  | composed (pts : Nat) (id : Nat)
deriving DecidableEq, Repr

/-- Environment giving the outcome of invoking the black-box session-leader
setup (by pts descriptor) and each user function (by id), as `std::io::Result`
values (`Except Nat Unit`, the `Nat` an error payload). -/
structure RunEnv where
  slResult : Nat → Except Nat Unit
  userResult : Nat → Except Nat Unit

/-- Invoke the session-leader setup closure for `pts`: its black-box result
from the environment, plus the event recording that it ran. -/
def runSessionLeader (env : RunEnv) (pts : Nat) : Except Nat Unit × List Event :=
  (env.slResult pts, [.sessionLeaderRun pts])

/-- Invoke the user function `id`: its black-box result from the
environment, plus the event recording that it ran. -/
def runUser (env : RunEnv) (id : Nat) : Except Nat Unit × List Event :=
  (env.userResult id, [.userRun id])

/-- Run a pre-exec function: the result and the trace of events, mirroring
the bodies of the closures in `Command::spawn`. The `composed` case mirrors
`session_leader()?; custom()?; Ok(())`: the `?` on `session_leader()`
propagates its failure before `custom()` is reached. -/
def PreExecFn.run (env : RunEnv) : PreExecFn → Except Nat Unit × List Event
  | .sessionLeader pts => runSessionLeader env pts
  | .user id => runUser env id
  | .composed pts id =>
      let r1 := runSessionLeader env pts
      match r1.1 with
      | .error e => (.error e, r1.2)
      | .ok _ =>
          let r2 := runUser env id
          match r2.1 with
          | .error e => (.error e, r1.2 ++ r2.2)
          | .ok _ => (.ok (), r1.2 ++ r2.2)

/-- Whether a pre-exec function captures the user function `id`. -/
def PreExecFn.mentions (f : PreExecFn) (id : Nat) : Bool :=
  match f with
  | .sessionLeader _ => false
  | .user i => i == id
  | .composed _ i => i == id

/-- One verbatim pass-through configuration call recorded by the delegate
(`async_process::Command`): args, env, cwd, uid, gid, arg0. Keys, values and
paths are numbers; the delegate's own semantics for them is out of scope. -/
inductive ConfigEntry where
  | arg (a : Nat)
  | env (k v : Nat)
  | envRemove (k : Nat)
  | envClear
  | currentDir (d : Nat)
  | uid (u : Nat)
  | gid (g : Nat)
  | arg0 (a : Nat)
deriving DecidableEq, Repr

/-- The delegate process builder (`async_process::Command`): the program, the
log of verbatim pass-through configuration, the per-stream stdio
configuration (`none` = never configured), and the list of installed
pre-exec callbacks (the underlying `CommandExt::pre_exec` registers
callbacks cumulatively, run in registration order). Stdio configurations and
handles are numbers (`Into<Stdio>` values / owned fds). -/
structure Inner where
  program : Nat
  config : List ConfigEntry
  stdin : Option Nat
  stdout : Option Nat
  stderr : Option Nat
  pre_execs : List PreExecFn
deriving DecidableEq, Repr

/-- `async_process::Command::new` -/
def Inner.new (program : Nat) : Inner :=
  { program := program, config := [], stdin := none, stdout := none,
    stderr := none, pre_execs := [] }

/-- `async_process::Command::stdin` (replaces the stream's configuration). -/
def Inner.setStdin (i : Inner) (cfg : Nat) : Inner := { i with stdin := some cfg }

/-- `async_process::Command::stdout` -/
def Inner.setStdout (i : Inner) (cfg : Nat) : Inner := { i with stdout := some cfg }

/-- `async_process::Command::stderr` -/
def Inner.setStderr (i : Inner) (cfg : Nat) : Inner := { i with stderr := some cfg }

/-- `async_process::unix::CommandExt::pre_exec` on the delegate: appends a
callback (multiple callbacks are all kept and run in order). -/
def Inner.addPreExec (i : Inner) (f : PreExecFn) : Inner :=
  { i with pre_execs := i.pre_execs ++ [f] }

/-- A verbatim pass-through configuration call on the delegate. -/
def Inner.pushConfig (i : Inner) (e : ConfigEntry) : Inner :=
  { i with config := i.config ++ [e] }

/-- The `Command` struct of `src/command.rs`: the delegate builder plus the
three per-stream booleans, the `pre_exec_set` boolean, and the optional
pending user pre-exec function (identified by a number). -/
structure Command where
  inner : Inner
  stdin : Bool
  stdout : Bool
  stderr : Bool
  pre_exec_set : Bool
  pre_exec : Option Nat
deriving DecidableEq, Repr

/-- `Command::new` -/
def Command.new (program : Nat) : Command :=
  { inner := Inner.new program, stdin := false, stdout := false,
    stderr := false, pre_exec_set := false, pre_exec := none }

/-- `Command::arg` (pure pass-through). -/
def Command.arg (c : Command) (a : Nat) : Command :=
  { c with inner := c.inner.pushConfig (.arg a) }

/-- `Command::env` (pure pass-through). -/
def Command.env (c : Command) (k v : Nat) : Command :=
  { c with inner := c.inner.pushConfig (.env k v) }

/-- `Command::env_remove` (pure pass-through). -/
def Command.env_remove (c : Command) (k : Nat) : Command :=
  { c with inner := c.inner.pushConfig (.envRemove k) }

/-- `Command::env_clear` (pure pass-through). -/
def Command.env_clear (c : Command) : Command :=
  { c with inner := c.inner.pushConfig .envClear }

/-- `Command::current_dir` (pure pass-through). -/
def Command.current_dir (c : Command) (d : Nat) : Command :=
  { c with inner := c.inner.pushConfig (.currentDir d) }

/-- `Command::uid` (pure pass-through). -/
def Command.uid (c : Command) (u : Nat) : Command :=
  { c with inner := c.inner.pushConfig (.uid u) }

/-- `Command::gid` (pure pass-through). -/
def Command.gid (c : Command) (g : Nat) : Command :=
  { c with inner := c.inner.pushConfig (.gid g) }

/-- `Command::arg0` (pure pass-through). -/
def Command.arg0 (c : Command) (a : Nat) : Command :=
  { c with inner := c.inner.pushConfig (.arg0 a) }

/-- `Command::stdin`: `self.stdin = true; self.inner.stdin(cfg); self`
(named `setStdin` here because `stdin` is the field). -/
def Command.setStdin (c : Command) (cfg : Nat) : Command :=
  { c with stdin := true, inner := c.inner.setStdin cfg }

/-- `Command::stdout` -/
def Command.setStdout (c : Command) (cfg : Nat) : Command :=
  { c with stdout := true, inner := c.inner.setStdout cfg }

/-- `Command::stderr` -/
def Command.setStderr (c : Command) (cfg : Nat) : Command :=
  { c with stderr := true, inner := c.inner.setStderr cfg }

/-- `Command::pre_exec`: `self.pre_exec = Some(Box::new(f)); self`. -/
def Command.preExec (c : Command) (id : Nat) : Command :=
  { c with pre_exec := some id }

/-- A pty reference; the only operation used is `pty.pts()`, giving the
slave-side descriptor. -/
structure Pty where
  ptsFd : Nat
deriving DecidableEq, Repr

/-- `Pty::pts` -/
def Pty.pts (p : Pty) : Nat := p.ptsFd

/-- Modelled from the spec: `crate::Error` (not under `src/`). The error
taxonomy distinguishes the resource-acquisition (I/O-kind) failure of
deriving stdio handles from the delegate's own spawn failure; both payloads
propagate unchanged. -/
inductive Error where
  | io (e : Nat)
  | spawnFailure (e : Nat)
deriving DecidableEq, Repr

/-- Modelled from the spec: the two external collaborators (not under
`src/`), as oracles. `setup_subprocess` is `crate::sys::setup_subprocess`:
from a slave descriptor, three owned inheritable stdio handles, or an
I/O-kind error; `innerSpawn` is the delegate primitive's own spawn
operation, returning a child handle (a number) or its own spawn error. -/
structure Sys where
  setup_subprocess : Nat → Except Nat (Nat × Nat × Nat)
  innerSpawn : Inner → Except Nat Nat

/-- The outcome of `Command::spawn`: the returned `crate::Result`, the
builder state after the call (`&mut self`), and whether the delegate's spawn
operation was invoked. -/
structure SpawnResult where
  result : Except Error Nat
  self : Command
  delegateCalled : Bool

/-- `Command::spawn`, translated line by line:
```
let pts = pty.pts();
let (stdin, stdout, stderr) = crate::sys::setup_subprocess(pts)?;
if !self.stdin { self.inner.stdin(stdin); }
if !self.stdout { self.inner.stdout(stdout); }
if !self.stderr { self.inner.stderr(stderr); }
let mut session_leader = crate::sys::session_leader(pts);
if let Some(mut custom) = self.pre_exec.take() {
    unsafe { self.inner.pre_exec(move || { session_leader()?; custom()?; Ok(()) }) };
} else if !self.pre_exec_set {
    unsafe { self.inner.pre_exec(session_leader) };
}
self.pre_exec_set = true;
Ok(self.inner.spawn()?)
```
`crate::sys::session_leader(pts)` is the closure `PreExecFn.sessionLeader pts`
(its construction cannot fail; only invoking it can). -/
def Command.spawn (sys : Sys) (self : Command) (pty : Pty) : SpawnResult :=
  let pts := pty.pts
  match sys.setup_subprocess pts with
  | .error e => ⟨.error (.io e), self, false⟩
  | .ok (sin, sout, serr) =>
    let self1 := if !self.stdin then { self with inner := self.inner.setStdin sin } else self
    let self2 := if !self1.stdout then { self1 with inner := self1.inner.setStdout sout } else self1
    let self3 := if !self2.stderr then { self2 with inner := self2.inner.setStderr serr } else self2
    let self4 :=
      match self3.pre_exec with
      | some custom =>
          { self3 with pre_exec := none,
                       inner := self3.inner.addPreExec (.composed pts custom) }
      | none =>
          if !self3.pre_exec_set then
            { self3 with inner := self3.inner.addPreExec (.sessionLeader pts) }
          else self3
    let self5 := { self4 with pre_exec_set := true }
    match sys.innerSpawn self5.inner with
    | .ok child => ⟨.ok child, self5, true⟩
    | .error e => ⟨.error (.spawnFailure e), self5, true⟩

/-- The operations a caller can perform on a `Command`. -/
inductive Op where
  | setStdin (cfg : Nat)
  | setStdout (cfg : Nat)
  | setStderr (cfg : Nat)
  | preExec (id : Nat)
  | arg (a : Nat)
  | env (k v : Nat)
  | env_remove (k : Nat)
  | env_clear
  | current_dir (d : Nat)
  | uid (u : Nat)
  | gid (g : Nat)
  | arg0 (a : Nat)
  | spawn (ptsFd : Nat)
deriving DecidableEq, Repr

/-- Apply one operation to a `Command` (for `spawn`, keep the mutated
builder and drop the result, as `&mut self` does). -/
def runOp (sys : Sys) (c : Command) : Op → Command
  | .setStdin cfg => c.setStdin cfg
  | .setStdout cfg => c.setStdout cfg
  | .setStderr cfg => c.setStderr cfg
  | .preExec id => c.preExec id
  | .arg a => c.arg a
  | .env k v => c.env k v
  | .env_remove k => c.env_remove k
  | .env_clear => c.env_clear
  | .current_dir d => c.current_dir d
  | .uid u => c.uid u
  | .gid g => c.gid g
  | .arg0 a => c.arg0 a
  | .spawn fd => (Command.spawn sys c ⟨fd⟩).self

/-- Apply a sequence of operations. -/
def runOps (sys : Sys) (c : Command) (ops : List Op) : Command :=
  ops.foldl (runOp sys) c

/-- Whether a sequence of operations contains an explicit `stdin` call. -/
def calledStdin (ops : List Op) : Bool :=
  ops.any fun o => match o with | .setStdin _ => true | _ => false

/-- Whether a sequence of operations contains an explicit `stdout` call. -/
def calledStdout (ops : List Op) : Bool :=
  ops.any fun o => match o with | .setStdout _ => true | _ => false

/-- Whether a sequence of operations contains an explicit `stderr` call. -/
def calledStderr (ops : List Op) : Bool :=
  ops.any fun o => match o with | .setStderr _ => true | _ => false

/-! helper characterizations of `Command.spawn` -/

/-- The pre-exec functions a spawn call appends to the delegate, by branch:
the wrapped user function if one is pending; otherwise the bare
session-leader closure, unless one was already installed. -/
def spawnApp (pts : Nat) (c : Command) : List PreExecFn :=
  match c.pre_exec with
  | some id => [.composed pts id]
  | none => if c.pre_exec_set then [] else [.sessionLeader pts]

/-- The builder state after a spawn call whose stdio-handle derivation
returned the triple `t`. -/
def spawnSelf (pts : Nat) (t : Nat × Nat × Nat) (c : Command) : Command :=
  { inner :=
      { c.inner with
          stdin := if c.stdin then c.inner.stdin else some t.1,
          stdout := if c.stdout then c.inner.stdout else some t.2.1,
          stderr := if c.stderr then c.inner.stderr else some t.2.2,
          pre_execs := c.inner.pre_execs ++ spawnApp pts c },
    stdin := c.stdin, stdout := c.stdout, stderr := c.stderr,
    pre_exec_set := true, pre_exec := none }

/-- A concrete oracle: stdio-handle derivation succeeds with handles
`pts+1`, `pts+2`, `pts+3`, and the delegate spawn succeeds with child 7. -/
def sysW : Sys :=
  { setup_subprocess := fun pts => .ok (pts + 1, pts + 2, pts + 3),
    innerSpawn := fun _ => .ok 7 }

/-- A concrete oracle whose stdio-handle derivation fails with error 42. -/
def sysSetupFail : Sys :=
  { setup_subprocess := fun _ => .error 42, innerSpawn := fun _ => .ok 7 }

/-- A concrete oracle where stdio-handle derivation succeeds but the
delegate's spawn fails with error 9. -/
def sysSpawnFail : Sys :=
  { setup_subprocess := fun pts => .ok (pts + 1, pts + 2, pts + 3),
    innerSpawn := fun _ => .error 9 }

/-- A concrete pty whose slave descriptor is 5. -/
def ptyW : Pty := ⟨5⟩

/-- A concrete run environment where every invocation succeeds. -/
def envOkW : RunEnv := ⟨fun _ => .ok (), fun _ => .ok ()⟩

/-- The builder after one successful spawn of a fresh `Command`. -/
def cmdAfterFirstSpawn : Command := (Command.spawn sysW (Command.new 0) ptyW).self

/-- The builder after register, spawn, register again, spawn again. -/
def cmdTwoInstalls : Command :=
  runOps sysW (Command.new 0) [.preExec 0, .spawn 5, .preExec 1, .spawn 5]

theorem spawn_eq_of_setup_error (sys : Sys) (c : Command) (pty : Pty) (e : Nat)
    (h : sys.setup_subprocess pty.pts = .error e) :
    Command.spawn sys c pty = ⟨.error (.io e), c, false⟩ := by
  simp [Command.spawn, h]

theorem spawn_eq_of_setup_ok (sys : Sys) (c : Command) (pty : Pty)
    (t : Nat × Nat × Nat) (h : sys.setup_subprocess pty.pts = .ok t) :
    Command.spawn sys c pty =
      (match sys.innerSpawn (spawnSelf pty.pts t c).inner with
        | .ok child => ⟨.ok child, spawnSelf pty.pts t c, true⟩
        | .error e => ⟨.error (.spawnFailure e), spawnSelf pty.pts t c, true⟩) := by
  obtain ⟨⟨prog, cfg, i1, i2, i3, ps⟩, b1, b2, b3, pset, pe⟩ := c
  obtain ⟨a, b, d⟩ := t
  simp only [Command.spawn, h]
  cases b1 <;> cases b2 <;> cases b3 <;> cases pset <;> cases pe <;>
    simp [spawnSelf, spawnApp, Inner.setStdin, Inner.setStdout,
      Inner.setStderr, Inner.addPreExec]

theorem spawn_self_of_setup_ok (sys : Sys) (c : Command) (pty : Pty)
    (t : Nat × Nat × Nat) (h : sys.setup_subprocess pty.pts = .ok t) :
    (Command.spawn sys c pty).self = spawnSelf pty.pts t c := by
  rw [spawn_eq_of_setup_ok sys c pty t h]
  cases sys.innerSpawn (spawnSelf pty.pts t c).inner <;> rfl

theorem spawn_result_of_setup_ok (sys : Sys) (c : Command) (pty : Pty)
    (t : Nat × Nat × Nat) (h : sys.setup_subprocess pty.pts = .ok t) :
    (Command.spawn sys c pty).result =
      (match sys.innerSpawn (spawnSelf pty.pts t c).inner with
        | .ok child => .ok child
        | .error e => .error (.spawnFailure e)) := by
  rw [spawn_eq_of_setup_ok sys c pty t h]
  cases sys.innerSpawn (spawnSelf pty.pts t c).inner <;> rfl

theorem spawn_delegateCalled_of_setup_ok (sys : Sys) (c : Command) (pty : Pty)
    (t : Nat × Nat × Nat) (h : sys.setup_subprocess pty.pts = .ok t) :
    (Command.spawn sys c pty).delegateCalled = true := by
  rw [spawn_eq_of_setup_ok sys c pty t h]
  cases sys.innerSpawn (spawnSelf pty.pts t c).inner <;> rfl

theorem spawn_self_flags (sys : Sys) (c : Command) (pty : Pty) :
    (Command.spawn sys c pty).self.stdin = c.stdin ∧
    (Command.spawn sys c pty).self.stdout = c.stdout ∧
    (Command.spawn sys c pty).self.stderr = c.stderr := by
  cases h : sys.setup_subprocess pty.pts with
  | error e => simp [spawn_eq_of_setup_error sys c pty e h]
  | ok t => simp [spawn_self_of_setup_ok sys c pty t h, spawnSelf]

theorem runOp_stdin_flag (sys : Sys) (c : Command) (op : Op) :
    (runOp sys c op).stdin =
      (c.stdin || match op with | .setStdin _ => true | _ => false) := by
  cases op <;>
    simp [runOp, Command.setStdin, Command.setStdout, Command.setStderr,
      Command.preExec, Command.arg, Command.env, Command.env_remove,
      Command.env_clear, Command.current_dir, Command.uid, Command.gid,
      Command.arg0]
  case spawn fd => simp [(spawn_self_flags sys c ⟨fd⟩).1]

theorem runOp_stdout_flag (sys : Sys) (c : Command) (op : Op) :
    (runOp sys c op).stdout =
      (c.stdout || match op with | .setStdout _ => true | _ => false) := by
  cases op <;>
    simp [runOp, Command.setStdin, Command.setStdout, Command.setStderr,
      Command.preExec, Command.arg, Command.env, Command.env_remove,
      Command.env_clear, Command.current_dir, Command.uid, Command.gid,
      Command.arg0]
  case spawn fd => simp [(spawn_self_flags sys c ⟨fd⟩).2.1]

theorem runOp_stderr_flag (sys : Sys) (c : Command) (op : Op) :
    (runOp sys c op).stderr =
      (c.stderr || match op with | .setStderr _ => true | _ => false) := by
  cases op <;>
    simp [runOp, Command.setStdin, Command.setStdout, Command.setStderr,
      Command.preExec, Command.arg, Command.env, Command.env_remove,
      Command.env_clear, Command.current_dir, Command.uid, Command.gid,
      Command.arg0]
  case spawn fd => simp [(spawn_self_flags sys c ⟨fd⟩).2.2]

theorem runOps_stdin_flag (sys : Sys) (ops : List Op) :
    ∀ c : Command, (runOps sys c ops).stdin = (c.stdin || calledStdin ops) := by
  induction ops with
  | nil => intro c; simp [runOps, calledStdin]
  | cons op ops ih =>
      intro c
      show (runOps sys (runOp sys c op) ops).stdin = _
      rw [ih, runOp_stdin_flag]
      simp [calledStdin, List.any_cons, Bool.or_assoc]

theorem runOps_stdout_flag (sys : Sys) (ops : List Op) :
    ∀ c : Command, (runOps sys c ops).stdout = (c.stdout || calledStdout ops) := by
  induction ops with
  | nil => intro c; simp [runOps, calledStdout]
  | cons op ops ih =>
      intro c
      show (runOps sys (runOp sys c op) ops).stdout = _
      rw [ih, runOp_stdout_flag]
      simp [calledStdout, List.any_cons, Bool.or_assoc]

theorem runOps_stderr_flag (sys : Sys) (ops : List Op) :
    ∀ c : Command, (runOps sys c ops).stderr = (c.stderr || calledStderr ops) := by
  induction ops with
  | nil => intro c; simp [runOps, calledStderr]
  | cons op ops ih =>
      intro c
      show (runOps sys (runOp sys c op) ops).stderr = _
      rw [ih, runOp_stderr_flag]
      simp [calledStderr, List.any_cons, Bool.or_assoc]

theorem runOp_pre_exec_set_mono (sys : Sys) (c : Command) (op : Op)
    (h : c.pre_exec_set = true) : (runOp sys c op).pre_exec_set = true := by
  cases op <;>
    simp only [runOp, Command.setStdin, Command.setStdout, Command.setStderr,
      Command.preExec, Command.arg, Command.env, Command.env_remove,
      Command.env_clear, Command.current_dir, Command.uid, Command.gid,
      Command.arg0] <;>
    try exact h
  case spawn fd =>
    cases hsetup : sys.setup_subprocess (Pty.pts ⟨fd⟩) with
    | error e => rw [spawn_eq_of_setup_error sys c ⟨fd⟩ e hsetup]; exact h
    | ok t => rw [spawn_self_of_setup_ok sys c ⟨fd⟩ t hsetup]; rfl

theorem runOps_pre_exec_set_mono (sys : Sys) (ops : List Op) :
    ∀ c : Command, c.pre_exec_set = true →
      (runOps sys c ops).pre_exec_set = true := by
  induction ops with
  | nil => intro c h; exact h
  | cons op ops ih =>
      intro c h
      exact ih (runOp sys c op) (runOp_pre_exec_set_mono sys c op h)

theorem run_no_userRun_of_not_mentions (f : Nat) (fn : PreExecFn)
    (h : fn.mentions f = false) (env : RunEnv) :
    Event.userRun f ∉ (PreExecFn.run env fn).2 := by
  cases fn with
  | sessionLeader pts => simp [PreExecFn.run, runSessionLeader]
  | user i =>
      have h' : i ≠ f := by simpa [PreExecFn.mentions] using h
      simp [PreExecFn.run, runUser]
      exact fun e => h' e.symm
  | composed pts i =>
      have h' : i ≠ f := by simpa [PreExecFn.mentions] using h
      cases hsl : env.slResult pts with
      | error e => simp [PreExecFn.run, runSessionLeader, runUser, hsl]
      | ok u =>
          cases hu : env.userResult i <;>
            simp [PreExecFn.run, runSessionLeader, runUser, hsl, hu] <;>
            exact fun e => h' e.symm

theorem runOp_no_mention (sys : Sys) (f : Nat) (c : Command) (op : Op)
    (hop : op ≠ .preExec f)
    (h1 : c.pre_exec ≠ some f)
    (h2 : ∀ fn ∈ c.inner.pre_execs, fn.mentions f = false) :
    (runOp sys c op).pre_exec ≠ some f ∧
    ∀ fn ∈ (runOp sys c op).inner.pre_execs, fn.mentions f = false := by
  cases op with
  | setStdin cfg => exact ⟨h1, h2⟩
  | setStdout cfg => exact ⟨h1, h2⟩
  | setStderr cfg => exact ⟨h1, h2⟩
  | arg a => exact ⟨h1, h2⟩
  | env k v => exact ⟨h1, h2⟩
  | env_remove k => exact ⟨h1, h2⟩
  | env_clear => exact ⟨h1, h2⟩
  | current_dir d => exact ⟨h1, h2⟩
  | uid u => exact ⟨h1, h2⟩
  | gid g => exact ⟨h1, h2⟩
  | arg0 a => exact ⟨h1, h2⟩
  | preExec id =>
      refine ⟨fun hcontra => hop ?_, h2⟩
      have : id = f := by
        simpa [runOp, Command.preExec] using hcontra
      rw [this]
  | spawn fd =>
      show (Command.spawn sys c ⟨fd⟩).self.pre_exec ≠ some f ∧
        ∀ fn ∈ (Command.spawn sys c ⟨fd⟩).self.inner.pre_execs,
          fn.mentions f = false
      cases hsetup : sys.setup_subprocess (Pty.pts ⟨fd⟩) with
      | error e =>
          rw [spawn_eq_of_setup_error sys c ⟨fd⟩ e hsetup]
          exact ⟨h1, h2⟩
      | ok t =>
          rw [spawn_self_of_setup_ok sys c ⟨fd⟩ t hsetup]
          refine ⟨by simp [spawnSelf], ?_⟩
          intro fn hfn
          simp only [spawnSelf] at hfn
          rcases List.mem_append.mp hfn with hold | hnew
          · exact h2 fn hold
          · rcases hpe : c.pre_exec with _ | id0
            · rw [spawnApp, hpe] at hnew
              by_cases hset : c.pre_exec_set <;> simp [hset] at hnew
              rw [hnew]; rfl
            · rw [spawnApp, hpe] at hnew
              simp at hnew
              rw [hnew]
              have : id0 ≠ f := fun he => h1 (by rw [hpe, he])
              simpa [PreExecFn.mentions] using this

theorem runOps_no_mention (sys : Sys) (f : Nat) (rest : List Op) :
    Op.preExec f ∉ rest →
    ∀ c : Command, c.pre_exec ≠ some f →
      (∀ fn ∈ c.inner.pre_execs, fn.mentions f = false) →
      ((runOps sys c rest).pre_exec ≠ some f ∧
       ∀ fn ∈ (runOps sys c rest).inner.pre_execs, fn.mentions f = false) := by
  induction rest with
  | nil => intro _ c h1 h2; exact ⟨h1, h2⟩
  | cons op ops ih =>
      intro hrest c h1 h2
      rw [List.mem_cons] at hrest
      push_neg at hrest
      obtain ⟨ha, hb⟩ :=
        runOp_no_mention sys f c op (Ne.symm hrest.1) h1 h2
      exact ih hrest.2 (runOp sys c op) ha hb

/-! claim theorems -/

/-- C1: for each of the three standard streams, spawn installs the
pty-derived handle produced by the stdio-derivation step into the delegate
if and only if the corresponding explicit stdio operation was never called
on the Command before the spawn; when it was called, the delegate's
configuration for that stream is left untouched; and each explicit stdio
operation sets its stream's explicitly-set flag to true in addition to
forwarding the configuration to the delegate. -/
theorem stdio_defaulting_iff_not_explicit (sys : Sys) (prog : Nat)
    (ops : List Op) (pty : Pty) (t : Nat × Nat × Nat)
    (hsetup : sys.setup_subprocess pty.pts = .ok t) :
    (∀ (c' : Command) (cfg : Nat),
      (c'.setStdin cfg).stdin = true ∧ (c'.setStdin cfg).inner.stdin = some cfg ∧
      (c'.setStdout cfg).stdout = true ∧ (c'.setStdout cfg).inner.stdout = some cfg ∧
      (c'.setStderr cfg).stderr = true ∧ (c'.setStderr cfg).inner.stderr = some cfg) ∧
    ((runOps sys (Command.new prog) ops).stdin = calledStdin ops ∧
     (runOps sys (Command.new prog) ops).stdout = calledStdout ops ∧
     (runOps sys (Command.new prog) ops).stderr = calledStderr ops) ∧
    ((calledStdin ops = false →
      (Command.spawn sys (runOps sys (Command.new prog) ops) pty).self.inner.stdin =
        some t.1) ∧
     (calledStdin ops = true →
      (Command.spawn sys (runOps sys (Command.new prog) ops) pty).self.inner.stdin =
        (runOps sys (Command.new prog) ops).inner.stdin)) ∧
    ((calledStdout ops = false →
      (Command.spawn sys (runOps sys (Command.new prog) ops) pty).self.inner.stdout =
        some t.2.1) ∧
     (calledStdout ops = true →
      (Command.spawn sys (runOps sys (Command.new prog) ops) pty).self.inner.stdout =
        (runOps sys (Command.new prog) ops).inner.stdout)) ∧
    ((calledStderr ops = false →
      (Command.spawn sys (runOps sys (Command.new prog) ops) pty).self.inner.stderr =
        some t.2.2) ∧
     (calledStderr ops = true →
      (Command.spawn sys (runOps sys (Command.new prog) ops) pty).self.inner.stderr =
        (runOps sys (Command.new prog) ops).inner.stderr)) := by
  have h1 : (runOps sys (Command.new prog) ops).stdin = calledStdin ops := by
    rw [runOps_stdin_flag]; rfl
  have h2 : (runOps sys (Command.new prog) ops).stdout = calledStdout ops := by
    rw [runOps_stdout_flag]; rfl
  have h3 : (runOps sys (Command.new prog) ops).stderr = calledStderr ops := by
    rw [runOps_stderr_flag]; rfl
  have hself := spawn_self_of_setup_ok sys (runOps sys (Command.new prog) ops)
    pty t hsetup
  refine ⟨?_, ⟨h1, h2, h3⟩, ⟨?_, ?_⟩, ⟨?_, ?_⟩, ⟨?_, ?_⟩⟩
  · intro c' cfg
    simp [Command.setStdin, Command.setStdout, Command.setStderr,
      Inner.setStdin, Inner.setStdout, Inner.setStderr]
  · intro hc; rw [hself]; simp [spawnSelf, h1, hc]
  · intro hc; rw [hself]; simp [spawnSelf, h1, hc]
  · intro hc; rw [hself]; simp [spawnSelf, h2, hc]
  · intro hc; rw [hself]; simp [spawnSelf, h2, hc]
  · intro hc; rw [hself]; simp [spawnSelf, h3, hc]
  · intro hc; rw [hself]; simp [spawnSelf, h3, hc]

theorem stdio_defaulting_iff_not_explicit_witness :
    (Command.spawn sysW (runOps sysW (Command.new 0) []) ptyW).self.inner.stdin =
      some 6 ∧
    (Command.spawn sysW (runOps sysW (Command.new 0) [.setStderr 11]) ptyW).self.inner.stderr =
      (runOps sysW (Command.new 0) [.setStderr 11]).inner.stderr :=
  ⟨(stdio_defaulting_iff_not_explicit sysW 0 [] ptyW (6, 7, 8) rfl).2.2.1.1 rfl,
   (stdio_defaulting_iff_not_explicit sysW 0 [.setStderr 11] ptyW (6, 7, 8)
      rfl).2.2.2.2.2 rfl⟩

/-- C9: the constructor initializes the three explicitly-set stdio flags and
the already-composed flag to false; no operation, in any sequence, ever
resets any of the four from true back to false; and spawn never changes the
three stdio flags. -/
theorem flags_monotone (sys : Sys) (prog : Nat) :
    ((Command.new prog).stdin = false ∧ (Command.new prog).stdout = false ∧
     (Command.new prog).stderr = false ∧
     (Command.new prog).pre_exec_set = false) ∧
    (∀ (c : Command) (op : Op),
      (c.stdin = true → (runOp sys c op).stdin = true) ∧
      (c.stdout = true → (runOp sys c op).stdout = true) ∧
      (c.stderr = true → (runOp sys c op).stderr = true) ∧
      (c.pre_exec_set = true → (runOp sys c op).pre_exec_set = true)) ∧
    (∀ (c : Command) (ops : List Op),
      (c.stdin = true → (runOps sys c ops).stdin = true) ∧
      (c.stdout = true → (runOps sys c ops).stdout = true) ∧
      (c.stderr = true → (runOps sys c ops).stderr = true) ∧
      (c.pre_exec_set = true → (runOps sys c ops).pre_exec_set = true)) ∧
    (∀ (c : Command) (pty : Pty),
      (Command.spawn sys c pty).self.stdin = c.stdin ∧
      (Command.spawn sys c pty).self.stdout = c.stdout ∧
      (Command.spawn sys c pty).self.stderr = c.stderr) := by
  refine ⟨⟨rfl, rfl, rfl, rfl⟩, ?_, ?_, fun c pty => spawn_self_flags sys c pty⟩
  · intro c op
    refine ⟨fun h => ?_, fun h => ?_, fun h => ?_,
      fun h => runOp_pre_exec_set_mono sys c op h⟩
    · rw [runOp_stdin_flag, h]; rfl
    · rw [runOp_stdout_flag, h]; rfl
    · rw [runOp_stderr_flag, h]; rfl
  · intro c ops
    refine ⟨fun h => ?_, fun h => ?_, fun h => ?_,
      fun h => runOps_pre_exec_set_mono sys ops c h⟩
    · rw [runOps_stdin_flag, h]; rfl
    · rw [runOps_stdout_flag, h]; rfl
    · rw [runOps_stderr_flag, h]; rfl

theorem flags_monotone_witness :
    (Command.new 0).stdin = false ∧
    (runOps sysW ((Command.new 0).setStdin 3) [.spawn 5, .preExec 1]).stdin =
      true :=
  ⟨(flags_monotone sysW 0).1.1,
   ((flags_monotone sysW 0).2.2.1 ((Command.new 0).setStdin 3)
      [.spawn 5, .preExec 1]).1 rfl⟩

/-- C4: in every pre-exec function installed by a spawn call, the
session-leader setup executes before any user-supplied function and is
never skipped: whenever a user function appears in the execution trace, the
trace begins with a successful session-leader setup for the spawn's slave
descriptor, followed only by that user function. -/
theorem session_leader_runs_first (sys : Sys) (c : Command) (pty : Pty)
    (f : PreExecFn)
    (hinst : (Command.spawn sys c pty).self.inner.pre_execs =
      c.inner.pre_execs ++ [f]) :
    ∀ (env : RunEnv) (id : Nat),
      Event.userRun id ∈ (PreExecFn.run env f).2 →
      env.slResult pty.pts = .ok () ∧
      (PreExecFn.run env f).2 =
        [.sessionLeaderRun pty.pts, .userRun id] := by
  cases hsetup : sys.setup_subprocess pty.pts with
  | error e =>
      rw [spawn_eq_of_setup_error sys c pty e hsetup] at hinst
      exfalso
      have := congrArg List.length hinst
      simp at this
  | ok t =>
      rw [spawn_self_of_setup_ok sys c pty t hsetup] at hinst
      simp only [spawnSelf] at hinst
      have happ : spawnApp pty.pts c = [f] := List.append_cancel_left hinst
      rcases hpe : c.pre_exec with _ | id0
      · rw [spawnApp, hpe] at happ
        by_cases hset : c.pre_exec_set <;> simp [hset] at happ
        intro env id hmem
        rw [← happ] at hmem
        simp [PreExecFn.run, runSessionLeader] at hmem
      · rw [spawnApp, hpe] at happ
        simp at happ
        intro env id hmem
        rw [← happ] at hmem ⊢
        cases hsl : env.slResult pty.pts with
        | error e =>
            simp [PreExecFn.run, runSessionLeader, runUser, hsl] at hmem
        | ok u =>
            have htr : (PreExecFn.run env (.composed pty.pts id0)).2 =
                [.sessionLeaderRun pty.pts, .userRun id0] := by
              cases hu : env.userResult id0 <;>
                simp [PreExecFn.run, runSessionLeader, runUser, hsl, hu]
            rw [htr] at hmem
            simp at hmem
            rw [hmem]
            exact ⟨rfl, htr⟩

theorem session_leader_runs_first_witness :
    envOkW.slResult (Pty.pts ptyW) = .ok () ∧
    (PreExecFn.run envOkW (.composed 5 3)).2 =
      [.sessionLeaderRun (Pty.pts ptyW), .userRun 3] :=
  session_leader_runs_first sysW ((Command.new 0).preExec 3) ptyW
    (.composed 5 3) (by decide) envOkW 3 (by decide)

/-- C5: registering a pre-exec function while another is pending replaces
the pending one without error (the slot then holds the new function), and
the replaced function is never mentioned by, nor invoked in, any pre-exec
function installed by any later operation sequence that does not register it
again. -/
theorem pre_exec_last_registration_wins (sys : Sys) (prog f g : Nat)
    (rest : List Op) (hne : g ≠ f) (hrest : Op.preExec f ∉ rest) :
    (((Command.new prog).preExec f).pre_exec = some f) ∧
    ((((Command.new prog).preExec f).preExec g).pre_exec = some g) ∧
    (∀ fn ∈ (runOps sys (((Command.new prog).preExec f).preExec g)
        rest).inner.pre_execs, fn.mentions f = false) ∧
    (∀ fn ∈ (runOps sys (((Command.new prog).preExec f).preExec g)
        rest).inner.pre_execs, ∀ env : RunEnv,
        Event.userRun f ∉ (PreExecFn.run env fn).2) := by
  have h0 := runOps_no_mention sys f rest hrest
    (((Command.new prog).preExec f).preExec g)
    (by simpa [Command.preExec] using hne)
    (by intro fn hfn; simp [Command.preExec, Command.new, Inner.new] at hfn)
  exact ⟨rfl, rfl, h0.2,
    fun fn hfn env => run_no_userRun_of_not_mentions f fn (h0.2 fn hfn) env⟩

theorem pre_exec_last_registration_wins_witness :
    ((((Command.new 0).preExec 0).preExec 1).pre_exec = some 1) ∧
    (∀ fn ∈ (runOps sysW (((Command.new 0).preExec 0).preExec 1)
        [.spawn 5]).inner.pre_execs, PreExecFn.mentions fn 0 = false) :=
  ⟨(pre_exec_last_registration_wins sysW 0 0 1 [.spawn 5] (by decide)
      (by decide)).2.1,
   (pre_exec_last_registration_wins sysW 0 0 1 [.spawn 5] (by decide)
      (by decide)).2.2.1⟩

/-- C6: if deriving the three stdio handles from the pty slave descriptor
fails, spawn returns that error as an I/O-kind error and the delegate's
spawn operation is never invoked, so no child process is created. -/
theorem setup_failure_aborts_before_delegate (sys : Sys) (c : Command)
    (pty : Pty) (e : Nat) (hsetup : sys.setup_subprocess pty.pts = .error e) :
    (Command.spawn sys c pty).result = .error (.io e) ∧
    (Command.spawn sys c pty).delegateCalled = false := by
  rw [spawn_eq_of_setup_error sys c pty e hsetup]
  exact ⟨rfl, rfl⟩

theorem setup_failure_aborts_before_delegate_witness :
    (Command.spawn sysSetupFail (Command.new 0) ptyW).result =
      .error (.io 42) ∧
    (Command.spawn sysSetupFail (Command.new 0) ptyW).delegateCalled = false :=
  setup_failure_aborts_before_delegate sysSetupFail (Command.new 0) ptyW 42 rfl

/-- C7: after a successful spawn, the pending pre-exec registration slot is
empty, whether or not a user pre-exec function had been registered. -/
theorem spawn_ok_leaves_slot_empty (sys : Sys) (c : Command) (pty : Pty)
    (child : Nat) (hok : (Command.spawn sys c pty).result = .ok child) :
    (Command.spawn sys c pty).self.pre_exec = none := by
  cases hsetup : sys.setup_subprocess pty.pts with
  | error e =>
      rw [spawn_eq_of_setup_error sys c pty e hsetup] at hok
      exact absurd hok (by simp)
  | ok t =>
      rw [spawn_self_of_setup_ok sys c pty t hsetup]
      rfl

theorem spawn_ok_leaves_slot_empty_witness :
    (Command.spawn sysW ((Command.new 0).preExec 3) ptyW).result = .ok 7 ∧
    (Command.spawn sysW ((Command.new 0).preExec 3) ptyW).self.pre_exec =
      none :=
  ⟨rfl, spawn_ok_leaves_slot_empty sysW ((Command.new 0).preExec 3) ptyW 7 rfl⟩

/-- C8: if spawn fails at the stdio-handle derivation step, the builder's
state — the three explicitly-set flags, the already-composed flag, the
pending registration slot, and the delegate state — is exactly what it was
before the call. -/
theorem setup_failure_state_unchanged (sys : Sys) (c : Command) (pty : Pty)
    (e : Nat) (hsetup : sys.setup_subprocess pty.pts = .error e) :
    (Command.spawn sys c pty).self.stdin = c.stdin ∧
    (Command.spawn sys c pty).self.stdout = c.stdout ∧
    (Command.spawn sys c pty).self.stderr = c.stderr ∧
    (Command.spawn sys c pty).self.pre_exec_set = c.pre_exec_set ∧
    (Command.spawn sys c pty).self.pre_exec = c.pre_exec ∧
    (Command.spawn sys c pty).self = c := by
  rw [spawn_eq_of_setup_error sys c pty e hsetup]
  exact ⟨rfl, rfl, rfl, rfl, rfl, rfl⟩

theorem setup_failure_state_unchanged_witness :
    (Command.spawn sysSetupFail ((Command.new 0).preExec 3) ptyW).self =
      (Command.new 0).preExec 3 :=
  (setup_failure_state_unchanged sysSetupFail ((Command.new 0).preExec 3)
    ptyW 42 rfl).2.2.2.2.2

/-- C10: if spawn fails at the final delegate-spawn step (stdio-handle
derivation succeeded), the error is the delegate's spawn failure, the
pending slot is empty, the already-composed flag is true, and a retried
spawn appends no further pre-exec function to the delegate. -/
theorem delegate_failure_composition_persists (sys : Sys) (c : Command)
    (pty : Pty) (t : Nat × Nat × Nat) (err : Error)
    (hsetup : sys.setup_subprocess pty.pts = .ok t)
    (hfail : (Command.spawn sys c pty).result = .error err) :
    (∃ e, err = .spawnFailure e) ∧
    (Command.spawn sys c pty).self.pre_exec = none ∧
    (Command.spawn sys c pty).self.pre_exec_set = true ∧
    (∀ (sys2 : Sys) (pty2 : Pty) (t2 : Nat × Nat × Nat),
      sys2.setup_subprocess pty2.pts = .ok t2 →
      (Command.spawn sys2 (Command.spawn sys c pty).self pty2).self.inner.pre_execs =
        (Command.spawn sys c pty).self.inner.pre_execs) := by
  have hself := spawn_self_of_setup_ok sys c pty t hsetup
  have hres := spawn_result_of_setup_ok sys c pty t hsetup
  refine ⟨?_, ?_, ?_, ?_⟩
  · rw [hres] at hfail
    cases hi : sys.innerSpawn (spawnSelf pty.pts t c).inner with
    | ok child => rw [hi] at hfail; exact absurd hfail (by simp)
    | error e2 =>
        rw [hi] at hfail
        simp only [Except.error.injEq] at hfail
        exact ⟨e2, hfail.symm⟩
  · rw [hself]; rfl
  · rw [hself]; rfl
  · intro sys2 pty2 t2 h2
    rw [hself, spawn_self_of_setup_ok sys2 (spawnSelf pty.pts t c) pty2 t2 h2]
    simp [spawnSelf, spawnApp]

theorem delegate_failure_composition_persists_witness :
    (Command.spawn sysSpawnFail ((Command.new 0).preExec 3) ptyW).self.pre_exec =
      none ∧
    (Command.spawn sysSpawnFail ((Command.new 0).preExec 3) ptyW).self.pre_exec_set =
      true :=
  ⟨(delegate_failure_composition_persists sysSpawnFail
      ((Command.new 0).preExec 3) ptyW (6, 7, 8) (.spawnFailure 9) rfl rfl).2.1,
   (delegate_failure_composition_persists sysSpawnFail
      ((Command.new 0).preExec 3) ptyW (6, 7, 8) (.spawnFailure 9) rfl rfl).2.2.1⟩

/-- C2 counterexample: after one successful spawn of a fresh `Command`, no
user pre-exec function is registered, yet a further spawn call does not
install the session-leader setup function into the delegate: the delegate's
pre-exec list is left unchanged (still the single function installed by the
first spawn). -/
theorem session_leader_direct_install_cex :
    cmdAfterFirstSpawn.pre_exec = none ∧
    (Command.spawn sysW cmdAfterFirstSpawn ptyW).self.inner.pre_execs =
      cmdAfterFirstSpawn.inner.pre_execs ∧
    cmdAfterFirstSpawn.inner.pre_execs = [.sessionLeader 5] := by
  decide

/-- C2 (amended): during spawn (with successful handle derivation), if a
user pre-exec function is registered it is moved out, leaving the slot
empty, and the function appended to the delegate is the wrapper that first
invokes session-leader setup — propagating a setup failure immediately
without invoking the user function, and on setup success invoking the user
function and propagating its result. If no user function is registered and
the already-composed flag is not yet set, the session-leader setup function
is installed directly, unmodified; if the flag is already set, nothing is
installed. -/
theorem pre_exec_composition (sys : Sys) (c : Command) (pty : Pty)
    (t : Nat × Nat × Nat) (hsetup : sys.setup_subprocess pty.pts = .ok t) :
    (∀ id, c.pre_exec = some id →
      (Command.spawn sys c pty).self.pre_exec = none ∧
      (Command.spawn sys c pty).self.inner.pre_execs =
        c.inner.pre_execs ++ [.composed pty.pts id] ∧
      (∀ (env : RunEnv) (e : Nat), env.slResult pty.pts = .error e →
        PreExecFn.run env (.composed pty.pts id) =
          (.error e, [.sessionLeaderRun pty.pts])) ∧
      (∀ env : RunEnv, env.slResult pty.pts = .ok () →
        (PreExecFn.run env (.composed pty.pts id)).2 =
          [.sessionLeaderRun pty.pts, .userRun id] ∧
        (PreExecFn.run env (.composed pty.pts id)).1 =
          env.userResult id)) ∧
    (c.pre_exec = none → c.pre_exec_set = false →
      (Command.spawn sys c pty).self.inner.pre_execs =
        c.inner.pre_execs ++ [.sessionLeader pty.pts]) ∧
    (c.pre_exec = none → c.pre_exec_set = true →
      (Command.spawn sys c pty).self.inner.pre_execs =
        c.inner.pre_execs) := by
  have hself := spawn_self_of_setup_ok sys c pty t hsetup
  refine ⟨?_, ?_, ?_⟩
  · intro id hpe
    refine ⟨by rw [hself]; rfl,
            by rw [hself]; simp [spawnSelf, spawnApp, hpe], ?_, ?_⟩
    · intro env e hsl
      simp [PreExecFn.run, runSessionLeader, runUser, hsl]
    · intro env hsl
      constructor <;> rcases hu : env.userResult id with e | u <;>
        simp [PreExecFn.run, runSessionLeader, runUser, hsl, hu]
  · intro hpe hset; rw [hself]; simp [spawnSelf, spawnApp, hpe, hset]
  · intro hpe hset; rw [hself]; simp [spawnSelf, spawnApp, hpe, hset]

theorem pre_exec_composition_witness :
    (Command.spawn sysW ((Command.new 0).preExec 3) ptyW).self.pre_exec =
      none ∧
    (Command.spawn sysW ((Command.new 0).preExec 3) ptyW).self.inner.pre_execs =
      ((Command.new 0).preExec 3).inner.pre_execs ++ [.composed 5 3] :=
  ⟨((pre_exec_composition sysW ((Command.new 0).preExec 3) ptyW (6, 7, 8)
      rfl).1 3 rfl).1,
   ((pre_exec_composition sysW ((Command.new 0).preExec 3) ptyW (6, 7, 8)
      rfl).1 3 rfl).2.1⟩

/-- C3 counterexample: over the operation sequence register, spawn,
register again, spawn again, two pre-exec functions end up installed in the
delegate, refuting that exactly one pre-exec function is ever installed. -/
theorem exactly_one_install_cex :
    cmdTwoInstalls.inner.pre_execs = [.composed 5 0, .composed 5 1] ∧
    cmdTwoInstalls.inner.pre_execs.length ≠ 1 := by
  decide

/-- C3 (amended): each spawn call (with successful handle derivation)
installs at most one pre-exec function into the delegate, appended after
the previously installed ones, which are never modified or re-wrapped; a
spawn that finds no pending user function and the already-composed flag set
installs nothing; and the already-composed flag is set to true by spawn
regardless of which composition branch was taken. (A new registration
between two spawn calls does lead to a further installation, so "exactly
one is ever installed" fails; see the counterexample.) -/
theorem install_at_most_one_per_spawn (sys : Sys) (c : Command) (pty : Pty)
    (t : Nat × Nat × Nat) (hsetup : sys.setup_subprocess pty.pts = .ok t) :
    (∃ app : List PreExecFn,
      (Command.spawn sys c pty).self.inner.pre_execs =
        c.inner.pre_execs ++ app ∧ app.length ≤ 1) ∧
    (c.pre_exec = none → c.pre_exec_set = true →
      (Command.spawn sys c pty).self.inner.pre_execs =
        c.inner.pre_execs) ∧
    (Command.spawn sys c pty).self.pre_exec_set = true := by
  have hself := spawn_self_of_setup_ok sys c pty t hsetup
  refine ⟨⟨spawnApp pty.pts c, ?_, ?_⟩, ?_, ?_⟩
  · rw [hself]; rfl
  · rw [spawnApp]
    rcases c.pre_exec with _ | id
    · by_cases hset : c.pre_exec_set <;> simp [hset]
    · simp
  · intro hpe hset; rw [hself]; simp [spawnSelf, spawnApp, hpe, hset]
  · rw [hself]; rfl

theorem install_at_most_one_per_spawn_witness :
    (Command.spawn sysW cmdAfterFirstSpawn ptyW).self.inner.pre_execs =
      cmdAfterFirstSpawn.inner.pre_execs ∧
    (Command.spawn sysW cmdAfterFirstSpawn ptyW).self.pre_exec_set = true :=
  ⟨(install_at_most_one_per_spawn sysW cmdAfterFirstSpawn ptyW (6, 7, 8)
      rfl).2.1 rfl rfl,
   (install_at_most_one_per_spawn sysW cmdAfterFirstSpawn ptyW (6, 7, 8)
      rfl).2.2⟩

end PtyProcess
